import Mathlib

/-!
Shallow embedding of the link-verification core of `substack_link_checker.py`
(class `SubstackLinkChecker`): domain policy, link cache, transport-probe
classification, retry controller with exponential backoff, batch dispatcher,
history tracking, and the run statistics.  Network nondeterminism is passed in
explicitly: each probe attempt consumes a `ProbeEvent` describing what the
single HTTP request did (response with status and title, or which exception
was raised), and `check_link_once` classifies it exactly as `_check_link_once`
does.  The cooperative single-threaded scheduling of one batch is modelled by
sequential state passing.
-/

namespace SLC

/-- Result of checking a single link; mirrors the dataclass `LinkCheckResult`
(fields `is_broken`, `error_type`, `from_cache`). -/
structure LinkCheckResult where
  is_broken : Bool
  error_type : String
  from_cache : Bool := false
deriving Repr, DecidableEq

/-- Record of a broken link for reporting; mirrors the dataclass
`BrokenLinkRecord`. -/
structure BrokenLinkRecord where
  post_title : String
  post_url : String
  broken_link : String
  error_type : String
deriving Repr, DecidableEq

/-- The `self.stats` counter dictionary of `SubstackLinkChecker.__init__`. -/
structure Stats where
  total_links_checked : Nat := 0
  cache_hits : Nat := 0
  broken_links : Nat := 0
  retries : Nat := 0
  posts_skipped : Nat := 0
  links_skipped : Nat := 0
  links_auto_broken : Nat := 0
deriving Repr, DecidableEq

/-- The mutable state of one `SubstackLinkChecker` instance that the claims
touch: configuration (`skip_domains`, `broken_domains`, `max_retries`,
`retry_delay`), the per-run link cache, the statistics, and the checked-posts
history map.  The Python sets and dicts are modelled as association lists;
the float `retry_delay` is modelled as an exact rational (the only arithmetic
performed on it is doubling, which is exact). -/
structure CheckerState where
  skip_domains : List String := []
  broken_domains : List String := []
  max_retries : Nat := 3
  retry_delay : ℚ := 1
  link_cache : List (String × LinkCheckResult) := []
  stats : Stats := {}
  checked_posts : List (String × String) := []
deriving Repr, DecidableEq

/-- Decides whether `pat` occurs as a contiguous run inside `s`
(the Python string membership test `pat in s`, over the character list). -/
def subListIn (pat : List Char) : List Char → Bool
  | [] => pat.isEmpty
  | c :: t => pat.isPrefixOf (c :: t) || subListIn pat t

/-- Python substring membership `pat in s`. -/
def containsSub (s pat : String) : Bool := subListIn pat.toList s.toList

/-- Python `s.endswith(suf)`. -/
def strEndsWith (s suf : String) : Bool := suf.toList.isSuffixOf s.toList

/-- Python `s.lower()` (ASCII range; the hosts and titles the claims touch are
ASCII), written over the character list so that it evaluates by reduction. -/
def strLower (s : String) : String := String.mk (s.toList.map Char.toLower)

/-- Python slicing `s[:n]`, written over the character list. -/
def strTake (s : String) (n : Nat) : String := String.mk (s.toList.take n)

/-- Characters allowed inside a URL scheme (`urllib.parse.scheme_chars`). -/
def isSchemeChar (c : Char) : Bool := c.isAlphanum || c == '+' || c == '-' || c == '.'

/-- Drop a leading `scheme:` from a URL the way `urllib.parse.urlsplit` does:
the text before the first colon must be non-empty, start with a letter and
consist of scheme characters. -/
def dropScheme (l : List Char) : List Char :=
  match l.findIdx? (fun c => c == ':') with
  | some i =>
    if 0 < i && (l.take i).all isSchemeChar && (l.headD ' ').isAlpha then
      l.drop (i + 1)
    else l
  | none => l

/-- Extract `urlparse(url).netloc`: present only after a leading `//`, running
up to the first `/`, `?` or `#`.  The value `none` models the `ValueError`
that `urlsplit` raises on an unbalanced IPv6 bracket; the two policy functions
catch that exception.  A URL with no `//` part has the empty netloc. -/
def netlocOf (url : String) : Option String :=
  let rest := dropScheme url.toList
  if rest.take 2 = ['/', '/'] then
    let netloc := (rest.drop 2).takeWhile (fun c => !(c == '/' || c == '?' || c == '#'))
    if (netloc.contains '[' && !netloc.contains ']') ||
        (netloc.contains ']' && !netloc.contains '[') then
      none
    else
      some (String.mk netloc)
  else
    some ""

/-- Mirrors `SubstackLinkChecker.should_skip_domain`: empty set short-circuits
to `false`; a parse failure is caught and yields `false`; otherwise the
lowercased netloc is tested for equality with, or dot-suffix of, each entry. -/
def should_skip_domain (skip_domains : List String) (url : String) : Bool :=
  if skip_domains.isEmpty then false
  else
    match netlocOf url with
    | none => false
    | some h =>
      let domain := strLower h
      skip_domains.any (fun d => domain == d || strEndsWith domain ("." ++ d))

/-- Mirrors `SubstackLinkChecker.is_broken_domain`; same matching rule as
`should_skip_domain` against the `broken_domains` set. -/
def is_broken_domain (broken_domains : List String) (url : String) : Bool :=
  if broken_domains.isEmpty then false
  else
    match netlocOf url with
    | none => false
    | some h =>
      let domain := strLower h
      broken_domains.any (fun d => domain == d || strEndsWith domain ("." ++ d))

/-- The `SOFT_404_PATTERNS` list of the source, verbatim. -/
def SOFT_404_PATTERNS : List String :=
  ["404 error", "page not found", "not found", "404",
   "page doesn\x27t exist", "page does not exist",
   "no longer available", "has been removed",
   "couldn\x27t find", "could not find"]

/-- What reading the response body and locating its title produced:
`parseFailure` models `response.text()` or BeautifulSoup raising (the inner
`except` treats it as OK), `noTitle` a page with no title tag, `titleText`
the extracted title text. -/
inductive TitleRead where
  | parseFailure
  | noTitle
  | titleText (t : String)
deriving Repr, DecidableEq

/-- Outcome of the single HTTP request underlying one `_check_link_once` call:
either a response (status plus what title extraction yields), or which
exception branch fired.  `clientError` stands for an `aiohttp.ClientError`
that is neither a `ClientSSLError` nor a `ClientConnectorError` (the Python
`except` chain tests in source order); `otherException` is any exception
outside the `aiohttp` hierarchy and `asyncio.TimeoutError`. -/
inductive ProbeEvent where
  | response (status : Nat) (title : TitleRead)
  | timeoutError
  | sslError (msg : String)
  | connectorError (msg : String)
  | clientError (msg : String)
  | otherException (msg : String)
deriving Repr, DecidableEq

/-- The `(is_broken, error_type, should_retry)` triple that
`_check_link_once` returns. -/
structure ProbeAnswer where
  is_broken : Bool
  error_type : String
  should_retry : Bool
deriving Repr, DecidableEq

/-- Mirrors `SubstackLinkChecker._check_link_once`: status classification in
source order (404, then >= 500, then >= 400), soft-404 title sniffing on the
remaining statuses (failing open on parse errors), and the exception ladder
(timeout, SSL, connector with the DNS substring test, generic client error,
anything else). -/
def check_link_once (ev : ProbeEvent) : ProbeAnswer :=
  match ev with
  | .response status title =>
    if status = 404 then ⟨true, "HTTP 404", false⟩
    else if 500 ≤ status then ⟨true, "HTTP " ++ toString status, true⟩
    else if 400 ≤ status then ⟨true, "HTTP " ++ toString status, false⟩
    else
      match title with
      | .parseFailure => ⟨false, "OK", false⟩
      | .noTitle => ⟨false, "OK", false⟩
      | .titleText t =>
        if SOFT_404_PATTERNS.any (fun p => containsSub (strLower t) p) then
          ⟨true, "Soft 404 (page title indicates error)", false⟩
        else ⟨false, "OK", false⟩
  | .timeoutError => ⟨true, "Timeout", true⟩
  | .sslError m => ⟨true, "SSL Error: " ++ strTake m 80, false⟩
  | .connectorError m =>
    if containsSub m "Name or service not known" ||
        containsSub m "nodename nor servname" then
      ⟨true, "DNS Failure", false⟩
    else ⟨true, "Connection Error: " ++ strTake m 80, true⟩
  | .clientError m => ⟨true, "Client Error: " ++ strTake m 80, true⟩
  | .otherException m => ⟨true, "Unknown Error: " ++ strTake m 80, false⟩

/-- First-match association-list lookup: Python `link in self.link_cache` /
`self.link_cache[link]`. -/
def cacheFind : List (String × LinkCheckResult) → String → Option LinkCheckResult
  | [], _ => none
  | (k, v) :: t, url => if k == url then some v else cacheFind t url

/-- Association-list update: Python `self.link_cache[link] = result`. -/
def cacheInsert : List (String × LinkCheckResult) → String → LinkCheckResult →
    List (String × LinkCheckResult)
  | [], url, r => [(url, r)]
  | (k, v) :: t, url, r => if k == url then (url, r) :: t else (k, v) :: cacheInsert t url r

/-- Outcome of the `for attempt in range(max_retries + 1)` loop of
`check_link_with_retry`: whether the loop ended with a broken outcome, the
last observed `error_type`, how many probe attempts ran, and the sequence of
backoff delays slept (the retry counter is bumped once per sleep). -/
structure LoopResult where
  broken : Bool
  last_error : String
  attempts : Nat
  sleeps : List ℚ
deriving Repr, DecidableEq

/-- The retry loop body of `check_link_with_retry`.  `remaining` counts the
attempts still allowed after the current one (initially `max_retries`, so
`remaining = 0` is the Python condition `attempt == max_retries`); `attempt`
indexes into the probe-event stream; `delay` is the current backoff value,
doubled after every sleep. -/
def retryLoop (events : Nat → ProbeEvent) : Nat → Nat → ℚ → LoopResult
  | 0, attempt, _ =>
    let p := check_link_once (events attempt)
    if p.is_broken = false then ⟨false, p.error_type, 1, []⟩
    else ⟨true, p.error_type, 1, []⟩
  | r + 1, attempt, delay =>
    let p := check_link_once (events attempt)
    if p.is_broken = false then ⟨false, p.error_type, 1, []⟩
    else if p.should_retry = false then ⟨true, p.error_type, 1, []⟩
    else
      let rest := retryLoop events r (attempt + 1) (delay * 2)
      ⟨rest.broken, rest.last_error, rest.attempts + 1, delay :: rest.sleeps⟩

/-- Everything one `check_link_with_retry` call produces: the returned
`LinkCheckResult`, the updated checker state, the number of network probe
attempts performed, and the backoff delays slept. -/
structure CheckOutcome where
  result : LinkCheckResult
  state : CheckerState
  attempts : Nat
  sleeps : List ℚ
deriving Repr, DecidableEq

/-- Mirrors `SubstackLinkChecker.check_link_with_retry`: auto-broken domains
first, then skip domains, then the cache, then the probe/retry loop whose
final classification is stored in the cache (bumping the broken counter when
broken). -/
def check_link_with_retry (st : CheckerState) (events : Nat → ProbeEvent)
    (link : String) : CheckOutcome :=
  if is_broken_domain st.broken_domains link then
    { result := ⟨true, "Known broken domain", false⟩
      state := { st with stats := { st.stats with
        links_auto_broken := st.stats.links_auto_broken + 1
        broken_links := st.stats.broken_links + 1 } }
      attempts := 0
      sleeps := [] }
  else if should_skip_domain st.skip_domains link then
    { result := ⟨false, "Skipped (bot-blocking domain)", false⟩
      state := { st with stats := { st.stats with
        links_skipped := st.stats.links_skipped + 1 } }
      attempts := 0
      sleeps := [] }
  else
    match cacheFind st.link_cache link with
    | some cached =>
      { result := ⟨cached.is_broken, cached.error_type, true⟩
        state := { st with stats := { st.stats with
          cache_hits := st.stats.cache_hits + 1 } }
        attempts := 0
        sleeps := [] }
    | none =>
      let loop := retryLoop events st.max_retries 0 st.retry_delay
      let result : LinkCheckResult :=
        if loop.broken then ⟨true, loop.last_error, false⟩ else ⟨false, "OK", false⟩
      { result := result
        state := { st with
          link_cache := cacheInsert st.link_cache link result
          stats := { st.stats with
            total_links_checked := st.stats.total_links_checked + 1
            retries := st.stats.retries + loop.sleeps.length
            broken_links := st.stats.broken_links + (if loop.broken then 1 else 0) } }
        attempts := loop.attempts
        sleeps := loop.sleeps }

/-- Mirrors `SubstackLinkChecker.check_links_batch` for a serialized schedule:
every link runs through `check_link_with_retry` (task order is list order, as
`asyncio.gather` preserves it), and each broken result is appended as a
`BrokenLinkRecord` for the current post.  `events` supplies the probe-event
stream per link. -/
def check_links_batch (st : CheckerState) (events : String → Nat → ProbeEvent) :
    List String → String → String → List BrokenLinkRecord × CheckerState
  | [], _, _ => ([], st)
  | link :: rest, post_title, post_url =>
    let out := check_link_with_retry st (events link) link
    let tail := check_links_batch out.state events rest post_title post_url
    if out.result.is_broken then
      (⟨post_title, post_url, link, out.result.error_type⟩ :: tail.1, tail.2)
    else tail

/-- Repeat `check_link_with_retry` on the same link `n` times, threading the
state (successive sequential invocations within one run). -/
def checkIter (events : Nat → ProbeEvent) (link : String) : Nat → CheckerState → CheckerState
  | 0, st => st
  | n + 1, st => checkIter events link n (check_link_with_retry st events link).state

/-- Python `url in self.checked_posts` (dict key membership). -/
def histMem (h : List (String × String)) (url : String) : Bool :=
  h.any (fun p => p.1 == url)

/-- Mirrors `SubstackLinkChecker.filter_unchecked_posts`: keep the input order,
drop the URLs already in the history map, and record the skipped count in the
`posts_skipped` statistic. -/
def filter_unchecked_posts (st : CheckerState) (post_urls : List String) :
    List String × CheckerState :=
  let unchecked := post_urls.filter (fun url => !histMem st.checked_posts url)
  let skipped := post_urls.length - unchecked.length
  (unchecked, { st with stats := { st.stats with posts_skipped := skipped } })

/-- Value of a top-level field of the parsed history document.  The document
the program itself writes has a string `last_updated` field and a
string-to-string `checked_posts` map, so one level of nesting suffices;
a non-dict `checked_posts` value is outside the claims and read as empty. -/
inductive HistJson where
  | dict (entries : List (String × String))
  | text (s : String)
deriving Repr, DecidableEq

/-- What opening and JSON-parsing the history file produced: the file is
missing, `json.load` or the read raised (`JSONDecodeError` / `IOError`), or a
parsed document given by its top-level fields. -/
inductive HistRead where
  | missing
  | corrupt
  | parsed (fields : List (String × HistJson))
deriving Repr, DecidableEq

/-- Dictionary field lookup on the parsed document (Python `data.get`). -/
def getField : List (String × HistJson) → String → Option HistJson
  | [], _ => none
  | (k, v) :: t, key => if k == key then some v else getField t key

/-- Mirrors `SubstackLinkChecker.load_history`.  A missing file leaves the
(initially empty) map as is; a corrupt file prints a warning (the returned
flag) and resets the map to empty; a parsed document contributes its
`checked_posts` field, defaulting to empty, with every other field ignored. -/
def load_history (st : CheckerState) (read : HistRead) : CheckerState × Bool :=
  match read with
  | .missing => (st, false)
  | .corrupt => ({ st with checked_posts := [] }, true)
  | .parsed fields =>
    ({ st with checked_posts :=
        match getField fields "checked_posts" with
        | some (.dict m) => m
        | _ => [] }, false)

/-- Probe-event stream that always times out (never consulted on the policy
and cache paths). -/
def evT : Nat → ProbeEvent := fun _ => ProbeEvent.timeoutError

/-- Probe-event stream of plain successful responses. -/
def ev200 : Nat → ProbeEvent := fun _ => ProbeEvent.response 200 TitleRead.noTitle

/-- Probe-event stream with outcomes 500, 500, 200, ... -/
def ev500x2 : Nat → ProbeEvent := fun n =>
  if n < 2 then ProbeEvent.response 500 TitleRead.noTitle
  else ProbeEvent.response 200 TitleRead.noTitle

/-- Per-link probe-event streams for batch checking. -/
def evPerLink : String → Nat → ProbeEvent := fun _ _ => ProbeEvent.timeoutError

/-- Checker configured with one auto-broken domain. -/
def stAuto : CheckerState := { broken_domains := ["x.com"] }

/-- Checker where the same domain is in both policy sets. -/
def stBoth : CheckerState := { broken_domains := ["x.com"], skip_domains := ["x.com"] }

/-- Checker with only the default skip domain. -/
def stSkip : CheckerState := { skip_domains := ["wikipedia.org"] }

/-- Checker configured with `max_retries = 2` (and base delay 1). -/
def stRetry2 : CheckerState := { max_retries := 2 }

/-- Checker whose cache already holds a broken classification for `"u"`. -/
def stCachedBroken : CheckerState :=
  { link_cache := [("u", { is_broken := true, error_type := "HTTP 404" })] }

/-- Checker whose history already contains post `"b"`. -/
def stHistB : CheckerState := { checked_posts := [("b", "2024-01-01")] }

/- Helper lemmas about the embedding. -/

/-- Looking up a key just stored finds exactly the stored value. -/
theorem cacheFind_cacheInsert_self (cache : List (String × LinkCheckResult))
    (url : String) (r : LinkCheckResult) :
    cacheFind (cacheInsert cache url r) url = some r := by
  induction cache with
  | nil => simp [cacheFind, cacheInsert]
  | cons p t ih =>
    obtain ⟨k, v⟩ := p
    by_cases hk : k == url
    · simp [cacheFind, cacheInsert, hk]
    · simp [cacheFind, cacheInsert, hk, ih]

/-- One `check_link_with_retry` call never changes the configuration fields or
the history map of the checker. -/
theorem check_config_eq (st : CheckerState) (ev : Nat → ProbeEvent) (link : String) :
    (check_link_with_retry st ev link).state.skip_domains = st.skip_domains
    ∧ (check_link_with_retry st ev link).state.broken_domains = st.broken_domains
    ∧ (check_link_with_retry st ev link).state.max_retries = st.max_retries
    ∧ (check_link_with_retry st ev link).state.retry_delay = st.retry_delay
    ∧ (check_link_with_retry st ev link).state.checked_posts = st.checked_posts := by
  unfold check_link_with_retry
  by_cases hb : is_broken_domain st.broken_domains link
  · simp [hb]
  · by_cases hs : should_skip_domain st.skip_domains link
    · simp [hb, hs]
    · cases hc : cacheFind st.link_cache link <;> simp [hb, hs, hc]

/-- Value of `check_link_with_retry` on the auto-broken-domain branch. -/
theorem check_link_auto_eq (st : CheckerState) (ev : Nat → ProbeEvent) (link : String)
    (hb : is_broken_domain st.broken_domains link = true) :
    check_link_with_retry st ev link =
      { result := ⟨true, "Known broken domain", false⟩
        state := { st with stats := { st.stats with
          links_auto_broken := st.stats.links_auto_broken + 1
          broken_links := st.stats.broken_links + 1 } }
        attempts := 0
        sleeps := [] } := by
  simp [check_link_with_retry, hb]

/-- Value of `check_link_with_retry` on the skip-domain branch. -/
theorem check_link_skip_eq (st : CheckerState) (ev : Nat → ProbeEvent) (link : String)
    (hb : is_broken_domain st.broken_domains link = false)
    (hs : should_skip_domain st.skip_domains link = true) :
    check_link_with_retry st ev link =
      { result := ⟨false, "Skipped (bot-blocking domain)", false⟩
        state := { st with stats := { st.stats with
          links_skipped := st.stats.links_skipped + 1 } }
        attempts := 0
        sleeps := [] } := by
  simp [check_link_with_retry, hb, hs]

/-- Value of `check_link_with_retry` on the cache-hit branch. -/
theorem check_link_hit_eq (st : CheckerState) (ev : Nat → ProbeEvent) (link : String)
    (c : LinkCheckResult)
    (hb : is_broken_domain st.broken_domains link = false)
    (hs : should_skip_domain st.skip_domains link = false)
    (hc : cacheFind st.link_cache link = some c) :
    check_link_with_retry st ev link =
      { result := ⟨c.is_broken, c.error_type, true⟩
        state := { st with stats := { st.stats with
          cache_hits := st.stats.cache_hits + 1 } }
        attempts := 0
        sleeps := [] } := by
  simp [check_link_with_retry, hb, hs, hc]

/-- Value of `check_link_with_retry` on the probing branch, in terms of the
outcome of the retry loop. -/
theorem check_link_probe_eq (st : CheckerState) (ev : Nat → ProbeEvent) (link : String)
    (hb : is_broken_domain st.broken_domains link = false)
    (hs : should_skip_domain st.skip_domains link = false)
    (hc : cacheFind st.link_cache link = none) :
    check_link_with_retry st ev link =
      { result := if (retryLoop ev st.max_retries 0 st.retry_delay).broken then
            ⟨true, (retryLoop ev st.max_retries 0 st.retry_delay).last_error, false⟩
          else ⟨false, "OK", false⟩
        state := { st with
          link_cache := cacheInsert st.link_cache link
            (if (retryLoop ev st.max_retries 0 st.retry_delay).broken then
              ⟨true, (retryLoop ev st.max_retries 0 st.retry_delay).last_error, false⟩
            else ⟨false, "OK", false⟩)
          stats := { st.stats with
            total_links_checked := st.stats.total_links_checked + 1
            retries := st.stats.retries +
              (retryLoop ev st.max_retries 0 st.retry_delay).sleeps.length
            broken_links := st.stats.broken_links +
              (if (retryLoop ev st.max_retries 0 st.retry_delay).broken then 1 else 0) } }
        attempts := (retryLoop ev st.max_retries 0 st.retry_delay).attempts
        sleeps := (retryLoop ev st.max_retries 0 st.retry_delay).sleeps } := by
  simp [check_link_with_retry, hb, hs, hc]

/-- Specification of the retry loop: at least one and at most `remaining + 1`
attempts; the slept delays are the base delay doubled per attempt, one sleep
per continued attempt; every non-final attempt observed a broken retryable
outcome; the loop reports whether the last attempt was broken and, when broken, its
error text; and the loop ended either by exhausting attempts or because the
last attempt was a success or non-retryable. -/
theorem retryLoop_spec (events : Nat → ProbeEvent) (r : Nat) :
    ∀ (attempt : Nat) (delay : ℚ) (out : LoopResult),
    retryLoop events r attempt delay = out →
    (1 ≤ out.attempts ∧ out.attempts ≤ r + 1)
    ∧ out.sleeps = (List.range (out.attempts - 1)).map (fun i => delay * 2 ^ i)
    ∧ (∀ j, j + 1 < out.attempts →
        (check_link_once (events (attempt + j))).is_broken = true
        ∧ (check_link_once (events (attempt + j))).should_retry = true)
    ∧ out.broken = (check_link_once (events (attempt + (out.attempts - 1)))).is_broken
    ∧ (out.broken = true →
        out.last_error = (check_link_once (events (attempt + (out.attempts - 1)))).error_type)
    ∧ (out.attempts = r + 1
        ∨ (check_link_once (events (attempt + (out.attempts - 1)))).is_broken = false
        ∨ (check_link_once (events (attempt + (out.attempts - 1)))).should_retry = false) := by
  induction r with
  | zero =>
    intro attempt delay out hout
    by_cases hp : (check_link_once (events attempt)).is_broken = false
    · have hcalc : retryLoop events 0 attempt delay =
          ⟨false, (check_link_once (events attempt)).error_type, 1, []⟩ := by
        simp [retryLoop, hp]
      rw [hcalc] at hout
      subst hout
      refine ⟨⟨le_refl 1, le_refl 1⟩, by simp, ?_, by simpa using hp.symm, by simp, by simp⟩
      intro j hj
      dsimp only at hj
      omega
    · have hp' : (check_link_once (events attempt)).is_broken = true := by simpa using hp
      have hcalc : retryLoop events 0 attempt delay =
          ⟨true, (check_link_once (events attempt)).error_type, 1, []⟩ := by
        simp [retryLoop, hp']
      rw [hcalc] at hout
      subst hout
      refine ⟨⟨le_refl 1, le_refl 1⟩, by simp, ?_, by simpa using hp'.symm, by simp, by simp⟩
      intro j hj
      dsimp only at hj
      omega
  | succ n ih =>
    intro attempt delay out hout
    by_cases hp : (check_link_once (events attempt)).is_broken = false
    · have hcalc : retryLoop events (n + 1) attempt delay =
          ⟨false, (check_link_once (events attempt)).error_type, 1, []⟩ := by
        simp [retryLoop, hp]
      rw [hcalc] at hout
      subst hout
      refine ⟨⟨le_refl 1, by dsimp only; omega⟩, by simp, ?_, by simpa using hp.symm, by simp, ?_⟩
      · intro j hj
        dsimp only at hj
        omega
      · right
        left
        simpa using hp
    · have hp' : (check_link_once (events attempt)).is_broken = true := by simpa using hp
      by_cases hr : (check_link_once (events attempt)).should_retry = false
      · have hcalc : retryLoop events (n + 1) attempt delay =
            ⟨true, (check_link_once (events attempt)).error_type, 1, []⟩ := by
          simp [retryLoop, hp', hr]
        rw [hcalc] at hout
        subst hout
        refine ⟨⟨le_refl 1, by dsimp only; omega⟩, by simp, ?_, by simpa using hp'.symm, by simp, ?_⟩
        · intro j hj
          dsimp only at hj
          omega
        · right
          right
          simpa using hr
      · have hr' : (check_link_once (events attempt)).should_retry = true := by simpa using hr
        obtain ⟨⟨ih1a, ih1b⟩, ih2, ih3, ih4, ih5, ih6⟩ :=
          ih (attempt + 1) (delay * 2) (retryLoop events n (attempt + 1) (delay * 2)) rfl
        have hcalc : retryLoop events (n + 1) attempt delay =
            ⟨(retryLoop events n (attempt + 1) (delay * 2)).broken,
             (retryLoop events n (attempt + 1) (delay * 2)).last_error,
             (retryLoop events n (attempt + 1) (delay * 2)).attempts + 1,
             delay :: (retryLoop events n (attempt + 1) (delay * 2)).sleeps⟩ := by
          simp [retryLoop, hp', hr']
        rw [hcalc] at hout
        subst hout
        dsimp only
        have hidx : attempt + ((retryLoop events n (attempt + 1) (delay * 2)).attempts + 1 - 1)
            = attempt + 1 + ((retryLoop events n (attempt + 1) (delay * 2)).attempts - 1) := by
          omega
        refine ⟨⟨by omega, by omega⟩, ?_, ?_, ?_, ?_, ?_⟩
        · obtain ⟨k, hk⟩ : ∃ k, (retryLoop events n (attempt + 1) (delay * 2)).attempts = k + 1 :=
            ⟨(retryLoop events n (attempt + 1) (delay * 2)).attempts - 1, by omega⟩
          rw [ih2, hk]
          simp only [Nat.add_sub_cancel, List.range_succ_eq_map, List.map_cons, List.map_map]
          rw [pow_zero, mul_one]
          have hfun : ((fun i : Nat => delay * 2 ^ i) ∘ Nat.succ)
              = (fun i : Nat => delay * 2 * 2 ^ i) := by
            funext i
            simp only [Function.comp_apply, Nat.succ_eq_add_one, pow_succ]
            ring
          rw [hfun]
        · intro j hj
          match j with
          | 0 =>
            simpa using ⟨hp', hr'⟩
          | jj + 1 =>
            have := ih3 jj (by omega)
            rw [show attempt + (jj + 1) = attempt + 1 + jj by omega]
            exact this
        · rw [hidx]
          exact ih4
        · intro hbk
          rw [hidx]
          exact ih5 hbk
        · rcases ih6 with h | h | h
          · left
            omega
          · right
            left
            rw [hidx]
            exact h
          · right
            right
            rw [hidx]
            exact h

/-- C6: for every URL and every policy entry, the domain policy matches the
URL against the entry iff the extracted, lowercased host of the URL equals the
entry or ends with a dot followed by the entry; and a URL whose host cannot
be parsed matches neither set, falling through to full probing. -/
theorem claim_C6 (skips brokens : List String) (url : String) :
    (should_skip_domain skips url = true ↔
      ∃ d ∈ skips, ∃ h, netlocOf url = some h ∧
        (strLower h = d ∨ strEndsWith (strLower h) ("." ++ d) = true))
    ∧ (is_broken_domain brokens url = true ↔
      ∃ d ∈ brokens, ∃ h, netlocOf url = some h ∧
        (strLower h = d ∨ strEndsWith (strLower h) ("." ++ d) = true))
    ∧ (netlocOf url = none →
        should_skip_domain skips url = false ∧ is_broken_domain brokens url = false) := by
  refine ⟨?_, ?_, ?_⟩
  · unfold should_skip_domain
    by_cases he : skips.isEmpty
    · simp [he, List.isEmpty_iff.mp he]
    · cases hn : netlocOf url with
      | none => simp [he, hn]
      | some h =>
        simp only [he, if_false, hn, List.any_eq_true, Bool.or_eq_true, beq_iff_eq,
          Option.some.injEq, Bool.false_eq_true]
        constructor
        · rintro ⟨d, hd, hm⟩
          exact ⟨d, hd, h, rfl, hm⟩
        · rintro ⟨d, hd, h2, hh2, hm⟩
          subst hh2
          exact ⟨d, hd, hm⟩
  · unfold is_broken_domain
    by_cases he : brokens.isEmpty
    · simp [he, List.isEmpty_iff.mp he]
    · cases hn : netlocOf url with
      | none => simp [he, hn]
      | some h =>
        simp only [he, if_false, hn, List.any_eq_true, Bool.or_eq_true, beq_iff_eq,
          Option.some.injEq, Bool.false_eq_true]
        constructor
        · rintro ⟨d, hd, hm⟩
          exact ⟨d, hd, h, rfl, hm⟩
        · rintro ⟨d, hd, h2, hh2, hm⟩
          subst hh2
          exact ⟨d, hd, hm⟩
  · intro hn
    constructor
    · unfold should_skip_domain
      simp [hn]
    · unfold is_broken_domain
      simp [hn]

/-- Witness for C6 at a concrete unparsable URL (unbalanced IPv6 bracket). -/
theorem claim_C6_witness :
    netlocOf "http://[x" = none
    ∧ should_skip_domain ["a"] "http://[x" = false
    ∧ is_broken_domain ["a"] "http://[x" = false := by
  refine ⟨by decide, ?_⟩
  exact (claim_C6 ["a"] ["a"] "http://[x").2.2 (by decide)

/-- C7: `filter_unchecked_posts` returns exactly the input elements that are
not keys of the history map, preserving the relative order of the survivors;
on input `["a", "b", "c"]` with history `{b}` it returns `["a", "c"]`. -/
theorem claim_C7 :
    (∀ (st : CheckerState) (urls : List String),
      List.Sublist (filter_unchecked_posts st urls).1 urls
      ∧ (∀ u, u ∈ (filter_unchecked_posts st urls).1 →
          u ∈ urls ∧ histMem st.checked_posts u = false)
      ∧ (∀ u, u ∈ urls → histMem st.checked_posts u = false →
          u ∈ (filter_unchecked_posts st urls).1))
    ∧ (filter_unchecked_posts stHistB ["a", "b", "c"]).1 = ["a", "c"] := by
  constructor
  · intro st urls
    refine ⟨List.filter_sublist urls, ?_, ?_⟩
    · intro u hu
      simp only [filter_unchecked_posts, List.mem_filter, Bool.not_eq_true'] at hu
      exact hu
    · intro u hu hm
      simp only [filter_unchecked_posts, List.mem_filter, Bool.not_eq_true']
      exact ⟨hu, hm⟩
  · decide

/-- Witness for C7: the element `"a"` survives the concrete filtering. -/
theorem claim_C7_witness :
    "a" ∈ (filter_unchecked_posts stHistB ["a", "b", "c"]).1 :=
  (claim_C7.1 stHistB ["a", "b", "c"]).2.2 "a" (by decide) (by decide)

/-- C8: loading history from a missing file yields an empty checked-posts map
without raising; corrupt data yields a warning and an empty map, never
aborting; and unknown extra fields of the parsed document are ignored. -/
theorem claim_C8 :
    (∀ st : CheckerState, st.checked_posts = [] →
      (load_history st .missing).1.checked_posts = []
      ∧ (load_history st .missing).2 = false)
    ∧ (∀ st : CheckerState,
      (load_history st .corrupt).1.checked_posts = []
      ∧ (load_history st .corrupt).2 = true)
    ∧ (∀ (st : CheckerState) (fields : List (String × HistJson)) (k : String) (v : HistJson),
        k ≠ "checked_posts" →
        load_history st (.parsed ((k, v) :: fields)) = load_history st (.parsed fields)) := by
  refine ⟨?_, ?_, ?_⟩
  · intro st h
    exact ⟨h, rfl⟩
  · intro st
    exact ⟨rfl, rfl⟩
  · intro st fields k v hk
    simp [load_history, getField, beq_iff_eq, hk]

/-- Witness for C8 at concrete inputs: a fresh checker with a missing file,
and a document carrying an extra `last_updated` field. -/
theorem claim_C8_witness :
    (load_history {} .missing).1.checked_posts = []
    ∧ load_history {} (.parsed [("last_updated", .text "now"),
        ("checked_posts", .dict [("p", "t")])])
      = load_history {} (.parsed [("checked_posts", .dict [("p", "t")])]) :=
  ⟨(claim_C8.1 {} rfl).1, claim_C8.2.2 {} _ "last_updated" _ (by decide)⟩

/-- C3 counterexample: a generic `aiohttp.ClientError` (neither timeout, TLS,
DNS, nor connection-establishment failure) is classified retryable with
reason "Client Error", not non-retryable "Unknown Error" as claimed. -/
theorem claim_C3_counterexample :
    (check_link_once (.clientError "payload ended prematurely")).should_retry = true
    ∧ containsSub (check_link_once (.clientError "payload ended prematurely")).error_type
        "Unknown Error" = false := by
  decide

/-- C3 (amended): transport exceptions outside the recognized categories split
in two: a generic aiohttp client error is broken and retryable with reason
"Client Error"; any exception outside the aiohttp/timeout hierarchy is broken
and non-retryable with reason "Unknown Error". -/
theorem claim_C3 (m : String) :
    check_link_once (.otherException m)
      = ⟨true, "Unknown Error: " ++ strTake m 80, false⟩
    ∧ check_link_once (.clientError m)
      = ⟨true, "Client Error: " ++ strTake m 80, true⟩ :=
  ⟨rfl, rfl⟩

/-- C4: an auto-broken host returns broken ("Known broken domain") with zero
probe attempts, bumping the auto-broken and broken counters; a skip host
(not auto-broken) returns OK ("Skipped (bot-blocking domain)") with zero
probe attempts, bumping the skipped counter; the auto-broken test runs first,
so it wins when a host matches both sets (the first conjunct needs no
skip-set hypothesis). -/
theorem claim_C4 (st : CheckerState) (ev : Nat → ProbeEvent) (link : String) :
    (is_broken_domain st.broken_domains link = true →
      (check_link_with_retry st ev link).result = ⟨true, "Known broken domain", false⟩
      ∧ (check_link_with_retry st ev link).attempts = 0
      ∧ (check_link_with_retry st ev link).state.stats.links_auto_broken
          = st.stats.links_auto_broken + 1
      ∧ (check_link_with_retry st ev link).state.stats.broken_links
          = st.stats.broken_links + 1)
    ∧ (is_broken_domain st.broken_domains link = false →
        should_skip_domain st.skip_domains link = true →
      (check_link_with_retry st ev link).result
          = ⟨false, "Skipped (bot-blocking domain)", false⟩
      ∧ (check_link_with_retry st ev link).attempts = 0
      ∧ (check_link_with_retry st ev link).state.stats.links_skipped
          = st.stats.links_skipped + 1) := by
  constructor
  · intro hb
    rw [check_link_auto_eq st ev link hb]
    exact ⟨rfl, rfl, rfl, rfl⟩
  · intro hb hs
    rw [check_link_skip_eq st ev link hb hs]
    exact ⟨rfl, rfl, rfl⟩

/-- Witness for C4: a host in both policy sets is auto-broken (precedence),
and a wikipedia subdomain is skipped. -/
theorem claim_C4_witness :
    is_broken_domain stBoth.broken_domains "http://x.com/a" = true
    ∧ should_skip_domain stBoth.skip_domains "http://x.com/a" = true
    ∧ (check_link_with_retry stBoth evT "http://x.com/a").result
        = ⟨true, "Known broken domain", false⟩
    ∧ should_skip_domain stSkip.skip_domains "https://en.wikipedia.org/wiki/A" = true
    ∧ (check_link_with_retry stSkip evT "https://en.wikipedia.org/wiki/A").result
        = ⟨false, "Skipped (bot-blocking domain)", false⟩ :=
  ⟨by decide, by decide, ((claim_C4 stBoth evT "http://x.com/a").1 (by decide)).1,
   by decide,
   ((claim_C4 stSkip evT "https://en.wikipedia.org/wiki/A").2 (by decide) (by decide)).1⟩

/-- C5: on a resolved 2xx/3xx response whose lowercased title contains a
soft-404 phrase, the probe reports broken, non-retryable, with the "Soft 404"
reason; a body/parse failure is treated as OK (fail open); and status 200
with title "404 Error - Page Not Found" is broken with a "Soft 404" reason. -/
theorem claim_C5 :
    (∀ (status : Nat) (t : String), 200 ≤ status → status < 400 →
      (∃ p ∈ SOFT_404_PATTERNS, containsSub (strLower t) p = true) →
      check_link_once (.response status (.titleText t))
        = ⟨true, "Soft 404 (page title indicates error)", false⟩
      ∧ containsSub "Soft 404 (page title indicates error)" "Soft 404" = true)
    ∧ (∀ status : Nat, 200 ≤ status → status < 400 →
      check_link_once (.response status .parseFailure) = ⟨false, "OK", false⟩)
    ∧ check_link_once (.response 200 (.titleText "404 Error - Page Not Found"))
        = ⟨true, "Soft 404 (page title indicates error)", false⟩ := by
  refine ⟨?_, ?_, by decide⟩
  · intro status t h2 h4 hp
    have hany : (SOFT_404_PATTERNS.any fun p => containsSub (strLower t) p) = true :=
      List.any_eq_true.mpr (by obtain ⟨p, hp1, hp2⟩ := hp; exact ⟨p, hp1, hp2⟩)
    refine ⟨?_, by decide⟩
    unfold check_link_once
    dsimp only
    rw [if_neg (show ¬(status = 404) by omega),
        if_neg (show ¬(500 ≤ status) by omega),
        if_neg (show ¬(400 ≤ status) by omega)]
    simp [hany]
  · intro status h2 h4
    unfold check_link_once
    dsimp only
    rw [if_neg (show ¬(status = 404) by omega),
        if_neg (show ¬(500 ≤ status) by omega),
        if_neg (show ¬(400 ≤ status) by omega)]

/-- Witness for C5 at a concrete soft-404 page and a concrete parse failure. -/
theorem claim_C5_witness :
    check_link_once (.response 301 (.titleText "This Page Not Found"))
      = ⟨true, "Soft 404 (page title indicates error)", false⟩
    ∧ check_link_once (.response 200 .parseFailure) = ⟨false, "OK", false⟩ :=
  ⟨((claim_C5.1 301 "This Page Not Found" (by omega) (by omega)
      ⟨"page not found", by decide, by decide⟩)).1,
   claim_C5.2.1 200 (by omega) (by omega)⟩

/-- C1 counterexample: a URL whose host matches an auto-broken entry is
checked twice; the second invocation is not a cache hit (the policy result is
never cached): `servedFromCache` stays false and the cache-hit counter does
not move. -/
theorem claim_C1_counterexample :
    (check_link_with_retry (check_link_with_retry stAuto evT "http://x.com/a").state
        evT "http://x.com/a").result.from_cache = false
    ∧ (check_link_with_retry (check_link_with_retry stAuto evT "http://x.com/a").state
        evT "http://x.com/a").state.stats.cache_hits
      = (check_link_with_retry stAuto evT "http://x.com/a").state.stats.cache_hits := by
  decide

/-- C1 (amended): for every URL matching neither the auto-broken nor the skip
domain sets, the second of two sequential `check_link_with_retry` invocations
within one run is a cache hit: zero probe attempts, cache-hit counter
incremented, same `is_broken` and reason as the first result, and
`from_cache = true`. -/
theorem claim_C1 (st : CheckerState) (ev ev2 : Nat → ProbeEvent) (link : String)
    (hb : is_broken_domain st.broken_domains link = false)
    (hs : should_skip_domain st.skip_domains link = false) :
    (check_link_with_retry (check_link_with_retry st ev link).state ev2 link).attempts = 0
    ∧ (check_link_with_retry (check_link_with_retry st ev link).state
        ev2 link).state.stats.cache_hits
        = (check_link_with_retry st ev link).state.stats.cache_hits + 1
    ∧ (check_link_with_retry (check_link_with_retry st ev link).state
        ev2 link).result.is_broken
        = (check_link_with_retry st ev link).result.is_broken
    ∧ (check_link_with_retry (check_link_with_retry st ev link).state
        ev2 link).result.error_type
        = (check_link_with_retry st ev link).result.error_type
    ∧ (check_link_with_retry (check_link_with_retry st ev link).state
        ev2 link).result.from_cache = true := by
  have hcfg := check_config_eq st ev link
  have hb2 : is_broken_domain (check_link_with_retry st ev link).state.broken_domains link
      = false := by
    rw [hcfg.2.1]
    exact hb
  have hs2 : should_skip_domain (check_link_with_retry st ev link).state.skip_domains link
      = false := by
    rw [hcfg.1]
    exact hs
  cases hc : cacheFind st.link_cache link with
  | some c =>
    have e1 := check_link_hit_eq st ev link c hb hs hc
    have hc2 : cacheFind (check_link_with_retry st ev link).state.link_cache link = some c := by
      rw [e1]
      exact hc
    have e2 := check_link_hit_eq _ ev2 link c hb2 hs2 hc2
    rw [e2, e1]
    exact ⟨rfl, rfl, rfl, rfl, rfl⟩
  | none =>
    have hstore : cacheFind (check_link_with_retry st ev link).state.link_cache link
        = some (check_link_with_retry st ev link).result := by
      rw [check_link_probe_eq st ev link hb hs hc]
      exact cacheFind_cacheInsert_self _ _ _
    have e2 := check_link_hit_eq _ ev2 link _ hb2 hs2 hstore
    rw [e2]
    exact ⟨rfl, rfl, rfl, rfl, rfl⟩

/-- Witness for C1 at a concrete non-policy URL probed successfully. -/
theorem claim_C1_witness :
    (check_link_with_retry (check_link_with_retry {} ev200 "https://ok.example/").state
        ev200 "https://ok.example/").result.from_cache = true :=
  (claim_C1 {} ev200 ev200 "https://ok.example/" rfl rfl).2.2.2.2

/-- C2: for a URL that reaches the probing stage, the retry controller makes
between 1 and `max_retries + 1` attempts, stops exactly at the first success
or non-retryable outcome, sleeps the doubling backoff sequence once per
continued attempt (never after the final attempt) while bumping the retry
counter accordingly, makes exactly one attempt when `max_retries = 0`, stores
the final classification in the cache, reports the last observed error and
bumps the broken counter when broken, and on `max_retries = 2` with probe
outcomes 500, 500, 200 makes exactly 3 attempts with sleeps `d, 2d` and
returns OK. -/
theorem claim_C2 (st : CheckerState) (ev : Nat → ProbeEvent) (link : String)
    (hb : is_broken_domain st.broken_domains link = false)
    (hs : should_skip_domain st.skip_domains link = false)
    (hc : cacheFind st.link_cache link = none) :
    (1 ≤ (check_link_with_retry st ev link).attempts
      ∧ (check_link_with_retry st ev link).attempts ≤ st.max_retries + 1)
    ∧ (∀ k, k ≤ st.max_retries →
        (∀ j, j < k → (check_link_once (ev j)).is_broken = true
          ∧ (check_link_once (ev j)).should_retry = true) →
        ((check_link_once (ev k)).is_broken = false
          ∨ (check_link_once (ev k)).should_retry = false) →
        (check_link_with_retry st ev link).attempts = k + 1)
    ∧ (check_link_with_retry st ev link).sleeps
        = (List.range ((check_link_with_retry st ev link).attempts - 1)).map
            (fun i => st.retry_delay * 2 ^ i)
    ∧ (check_link_with_retry st ev link).state.stats.retries
        = st.stats.retries + ((check_link_with_retry st ev link).attempts - 1)
    ∧ (st.max_retries = 0 → (check_link_with_retry st ev link).attempts = 1)
    ∧ (check_link_with_retry st ev link).state.stats.total_links_checked
        = st.stats.total_links_checked + 1
    ∧ cacheFind (check_link_with_retry st ev link).state.link_cache link
        = some (check_link_with_retry st ev link).result
    ∧ ((check_link_with_retry st ev link).result.is_broken = true →
        (check_link_with_retry st ev link).result.error_type
          = (check_link_once (ev ((check_link_with_retry st ev link).attempts - 1))).error_type
        ∧ (check_link_with_retry st ev link).state.stats.broken_links
          = st.stats.broken_links + 1)
    ∧ ((check_link_with_retry st ev link).result.is_broken = false →
        (check_link_with_retry st ev link).result = ⟨false, "OK", false⟩
        ∧ (check_link_with_retry st ev link).state.stats.broken_links
          = st.stats.broken_links)
    ∧ (st.max_retries = 2 →
        ev 0 = .response 500 .noTitle → ev 1 = .response 500 .noTitle →
        ev 2 = .response 200 .noTitle →
        (check_link_with_retry st ev link).attempts = 3
        ∧ (check_link_with_retry st ev link).sleeps
            = [st.retry_delay, st.retry_delay * 2]
        ∧ (check_link_with_retry st ev link).result = ⟨false, "OK", false⟩) := by
  obtain ⟨⟨h1a, h1b⟩, h2, h3, h4, h5, h6⟩ :=
    retryLoop_spec ev st.max_retries 0 st.retry_delay
      (retryLoop ev st.max_retries 0 st.retry_delay) rfl
  simp only [Nat.zero_add] at h3 h4 h5 h6
  rw [check_link_probe_eq st ev link hb hs hc]
  dsimp only
  refine ⟨⟨h1a, h1b⟩, ?_, h2, ?_, ?_, rfl, ?_, ?_, ?_, ?_⟩
  · intro k hk hcont hstop
    rcases Nat.lt_trichotomy ((retryLoop ev st.max_retries 0 st.retry_delay).attempts - 1) k
      with hlt | heq | hgt
    · exfalso
      rcases h6 with h | h | h
      · omega
      · have hx := (hcont _ hlt).1
        rw [h] at hx
        simp at hx
      · have hx := (hcont _ hlt).2
        rw [h] at hx
        simp at hx
    · omega
    · exfalso
      have hx := h3 k (by omega)
      rcases hstop with h | h
      · rw [h] at hx
        simp at hx
      · rw [h] at hx
        simp at hx
  · rw [h2]
    simp
  · intro h0
    omega
  · exact cacheFind_cacheInsert_self _ _ _
  · by_cases hbk : (retryLoop ev st.max_retries 0 st.retry_delay).broken
    · intro _
      rw [if_pos hbk]
      exact ⟨h5 hbk, by simp [hbk]⟩
    · rw [if_neg hbk]
      intro hx
      simp at hx
  · by_cases hbk : (retryLoop ev st.max_retries 0 st.retry_delay).broken
    · rw [if_pos hbk]
      intro hx
      simp at hx
    · intro _
      rw [if_neg hbk]
      refine ⟨rfl, ?_⟩
      simp [hbk]
  · intro hm h0 h1 hcase2
    have hL : retryLoop ev st.max_retries 0 st.retry_delay
        = ⟨false, "OK", 3, [st.retry_delay, st.retry_delay * 2]⟩ := by
      rw [hm]
      simp [retryLoop, h0, h1, hcase2, check_link_once]
    rw [hL]
    exact ⟨rfl, rfl, rfl⟩

/-- Witness for C2 at `max_retries = 2` with the 500, 500, 200 probe
sequence. -/
theorem claim_C2_witness :
    (check_link_with_retry stRetry2 ev500x2 "http://a/").attempts = 3
    ∧ (check_link_with_retry stRetry2 ev500x2 "http://a/").sleeps = [1, 2]
    ∧ (check_link_with_retry stRetry2 ev500x2 "http://a/").result
        = ⟨false, "OK", false⟩ := by
  have h := (claim_C2 stRetry2 ev500x2 "http://a/" rfl rfl rfl).2.2.2.2.2.2.2.2.2
    rfl rfl rfl rfl
  refine ⟨h.1, ?_, h.2.2⟩
  have := h.2.1
  simpa [stRetry2] using this

/-- Auto-broken policy hits are re-counted on every repetition: `n` sequential
checks add `n` to both the auto-broken and broken counters. -/
theorem checkIter_auto (ev : Nat → ProbeEvent) (link : String) :
    ∀ (n : Nat) (st : CheckerState), is_broken_domain st.broken_domains link = true →
      (checkIter ev link n st).stats.links_auto_broken = st.stats.links_auto_broken + n
      ∧ (checkIter ev link n st).stats.broken_links = st.stats.broken_links + n := by
  intro n
  induction n with
  | zero =>
    intro st hb
    simp [checkIter]
  | succ m ih =>
    intro st hb
    have e := check_link_auto_eq st ev link hb
    have hb2 : is_broken_domain (check_link_with_retry st ev link).state.broken_domains link
        = true := by
      rw [(check_config_eq st ev link).2.1]
      exact hb
    have hm := ih (check_link_with_retry st ev link).state hb2
    simp only [checkIter]
    constructor
    · rw [hm.1, e]
      dsimp only
      omega
    · rw [hm.2, e]
      dsimp only
      omega

/-- Repeated checks of a cached URL never move the broken counter. -/
theorem checkIter_hit (ev : Nat → ProbeEvent) (link : String) :
    ∀ (n : Nat) (st : CheckerState) (c : LinkCheckResult),
      is_broken_domain st.broken_domains link = false →
      should_skip_domain st.skip_domains link = false →
      cacheFind st.link_cache link = some c →
      (checkIter ev link n st).stats.broken_links = st.stats.broken_links := by
  intro n
  induction n with
  | zero =>
    intro st c _ _ _
    simp [checkIter]
  | succ m ih =>
    intro st c hb hs hc
    have e := check_link_hit_eq st ev link c hb hs hc
    have hb2 : is_broken_domain (check_link_with_retry st ev link).state.broken_domains link
        = false := by
      rw [(check_config_eq st ev link).2.1]
      exact hb
    have hs2 : should_skip_domain (check_link_with_retry st ev link).state.skip_domains link
        = false := by
      rw [(check_config_eq st ev link).1]
      exact hs
    have hc2 : cacheFind (check_link_with_retry st ev link).state.link_cache link = some c := by
      rw [e]
      exact hc
    have hm := ih (check_link_with_retry st ev link).state c hb2 hs2 hc2
    simp only [checkIter]
    rw [hm, e]

/-- C9: the cache is written only when a probe actually ran: policy results
(auto-broken and skip) and cache hits leave the cache untouched, so `n`
repeated checks of an auto-broken URL add `n` to both the auto-broken and
broken counters, while a probed broken URL bumps the broken counter exactly
once per run (later checks hit the cache and leave it unchanged). -/
theorem claim_C9 (st : CheckerState) (ev : Nat → ProbeEvent) (link : String) :
    (is_broken_domain st.broken_domains link = true →
      (check_link_with_retry st ev link).state.link_cache = st.link_cache
      ∧ ∀ n, (checkIter ev link n st).stats.links_auto_broken
            = st.stats.links_auto_broken + n
        ∧ (checkIter ev link n st).stats.broken_links = st.stats.broken_links + n)
    ∧ (is_broken_domain st.broken_domains link = false →
        should_skip_domain st.skip_domains link = true →
        (check_link_with_retry st ev link).state.link_cache = st.link_cache)
    ∧ (∀ c, cacheFind st.link_cache link = some c →
        is_broken_domain st.broken_domains link = false →
        should_skip_domain st.skip_domains link = false →
        (check_link_with_retry st ev link).state.link_cache = st.link_cache
        ∧ (check_link_with_retry st ev link).state.stats.broken_links
            = st.stats.broken_links)
    ∧ (is_broken_domain st.broken_domains link = false →
        should_skip_domain st.skip_domains link = false →
        cacheFind st.link_cache link = none →
        cacheFind (check_link_with_retry st ev link).state.link_cache link
          = some (check_link_with_retry st ev link).result
        ∧ ((check_link_with_retry st ev link).result.is_broken = true →
            (check_link_with_retry st ev link).state.stats.broken_links
              = st.stats.broken_links + 1
            ∧ ∀ (ev2 : Nat → ProbeEvent) (n : Nat),
              (checkIter ev2 link n
                  (check_link_with_retry st ev link).state).stats.broken_links
                = (check_link_with_retry st ev link).state.stats.broken_links)) := by
  refine ⟨?_, ?_, ?_, ?_⟩
  · intro hb
    refine ⟨?_, fun n => checkIter_auto ev link n st hb⟩
    rw [check_link_auto_eq st ev link hb]
  · intro hb hs
    rw [check_link_skip_eq st ev link hb hs]
  · intro c hc hb hs
    rw [check_link_hit_eq st ev link c hb hs hc]
    exact ⟨rfl, rfl⟩
  · intro hb hs hc
    have e := check_link_probe_eq st ev link hb hs hc
    have hstore : cacheFind (check_link_with_retry st ev link).state.link_cache link
        = some (check_link_with_retry st ev link).result := by
      rw [e]
      exact cacheFind_cacheInsert_self _ _ _
    refine ⟨hstore, ?_⟩
    intro hbk
    constructor
    · rw [e] at hbk ⊢
      dsimp only at hbk ⊢
      by_cases hLb : (retryLoop ev st.max_retries 0 st.retry_delay).broken
      · simp [hLb]
      · rw [if_neg hLb] at hbk
        simp at hbk
    · intro ev2 n
      have hb2 : is_broken_domain (check_link_with_retry st ev link).state.broken_domains link
          = false := by
        rw [(check_config_eq st ev link).2.1]
        exact hb
      have hs2 : should_skip_domain (check_link_with_retry st ev link).state.skip_domains link
          = false := by
        rw [(check_config_eq st ev link).1]
        exact hs
      exact checkIter_hit ev2 link n (check_link_with_retry st ev link).state
        (check_link_with_retry st ev link).result hb2 hs2 hstore

/-- Witness for C9: two repeated checks of a concrete auto-broken URL add two
to the auto-broken counter. -/
theorem claim_C9_witness :
    (checkIter evT "http://x.com/a" 2 stAuto).stats.links_auto_broken
      = stAuto.stats.links_auto_broken + 2 :=
  (((claim_C9 stAuto evT "http://x.com/a").1 (by decide)).2 2).1

/-- C10: on a cache hit for a URL cached as broken, the only state change is
the cache-hit counter (broken counter, checked counter, cache contents and
everything else unchanged), the returned classification repeats the cached
one with `from_cache = true`, and the batch dispatcher still appends a
`BrokenLinkRecord` for the current post. -/
theorem claim_C10 (st : CheckerState) (ev : Nat → ProbeEvent)
    (evb : String → Nat → ProbeEvent) (link title purl : String) (c : LinkCheckResult)
    (hb : is_broken_domain st.broken_domains link = false)
    (hs : should_skip_domain st.skip_domains link = false)
    (hc : cacheFind st.link_cache link = some c)
    (hbr : c.is_broken = true) :
    (check_link_with_retry st ev link).result = ⟨true, c.error_type, true⟩
    ∧ (check_link_with_retry st ev link).attempts = 0
    ∧ (check_link_with_retry st ev link).state
        = { st with stats := { st.stats with cache_hits := st.stats.cache_hits + 1 } }
    ∧ (check_links_batch st evb [link] title purl).1
        = [⟨title, purl, link, c.error_type⟩] := by
  have e := check_link_hit_eq st ev link c hb hs hc
  have eb := check_link_hit_eq st (evb link) link c hb hs hc
  refine ⟨?_, ?_, ?_, ?_⟩
  · rw [e, hbr]
  · rw [e]
  · rw [e]
  · simp [check_links_batch, eb, hbr]

/-- Witness for C10 at a concrete preloaded cache. -/
theorem claim_C10_witness :
    (check_link_with_retry stCachedBroken evT "u").result = ⟨true, "HTTP 404", true⟩
    ∧ (check_links_batch stCachedBroken evPerLink ["u"] "T" "P").1
      = [⟨"T", "P", "u", "HTTP 404"⟩] := by
  have h := claim_C10 stCachedBroken evT evPerLink "u" "T" "P"
      { is_broken := true, error_type := "HTTP 404" } rfl rfl rfl rfl
  exact ⟨h.1, h.2.2.2⟩

end SLC
